import Mathlib

/-!
Shallow embedding of the stateful GPU command-submission layer declared in
src/rwengine/src/render/OpenGLRenderer.hpp.  The inline member functions of
the header (setBlend, setDepthMode, setDepthWrite, attachUBO, uploadUBO's
profiling increment, OpenGLShaderProgram::getUniformLocation) are transcribed
directly from their source bodies.  Member functions whose bodies live in the
(absent) implementation file are modelled from the specification, as marked
in their doc comments.  Device commands are modelled as an explicit event
type; each stateful operation returns the successor state together with the
list of device calls it emitted, in emission order.
-/

namespace OpenGLRenderer

/-- Blend modes, from the `enum class BlendMode` of the header
(lines 60-64): BLEND_NONE, BLEND_ALPHA, BLEND_ADDITIVE. -/
inductive BlendMode where
  | BLEND_NONE : BlendMode
  | BLEND_ALPHA : BlendMode
  | BLEND_ADDITIVE : BlendMode
deriving DecidableEq, Repr

/-- Depth test modes, from the `enum class DepthMode` of the header
(lines 66-69): OFF, LESS. -/
inductive DepthMode where
  | OFF : DepthMode
  | LESS : DepthMode
deriving DecidableEq, Repr

/-- Device (OpenGL) state-change and draw commands emitted by the renderer.
Each constructor corresponds to one underlying device invocation. -/
inductive GLCall where
  | glEnableBlend : GLCall
  | glDisableBlend : GLCall
  | glBlendFuncAlpha : GLCall
  | glBlendFuncAdditive : GLCall
  | glEnableDepthTest : GLCall
  | glDisableDepthTest : GLCall
  | glDepthFuncLess : GLCall
  | glDepthMask : Bool → GLCall
  | bindTexture : Nat → Nat → GLCall
  | glBindBufferUBO : Nat → GLCall
  | bindDrawBuffer : Nat → GLCall
  | uploadObjectUBO : GLCall
  | glDrawElements : Nat → Nat → GLCall
deriving DecidableEq, Repr

/-- Association-list lookup for the `std::map<GLuint, GLuint> currentTextures`
cache (header line 357): returns the texture bound to a unit, if any. -/
def texLookup : List (Nat × Nat) → Nat → Option Nat
  | [], _ => none
  | (u, t) :: rest, unit => if u = unit then some t else texLookup rest unit

/-- Association-list insert-or-replace for the texture-unit cache. -/
def texInsert : List (Nat × Nat) → Nat → Nat → List (Nat × Nat)
  | [], unit, tex => [(unit, tex)]
  | (u, t) :: rest, unit, tex =>
    if u = unit then (u, tex) :: rest else (u, t) :: texInsert rest unit tex

/-- The device state cache of `OpenGLRenderer` (header lines 349-357):
currently bound draw buffer, blend mode, depth mode, depth-write flag,
bound uniform buffer and the per-unit texture bindings.  Draw buffers and
textures are identified by opaque numeric handles; the null draw-buffer
pointer is `none`. -/
structure GLState where
  currentDbuff : Option Nat
  blendMode : BlendMode
  depthMode : DepthMode
  depthWriteEnabled : Bool
  currentUBO : Nat
  currentTextures : List (Nat × Nat)
deriving DecidableEq, Repr

/-- The in-class initializers of the state-cache fields (header lines
350-357): no buffer bound, BLEND_NONE, DepthMode::OFF, depth writes off,
uniform buffer 0, empty texture map. -/
def initialState : GLState :=
  { currentDbuff := none
    blendMode := BlendMode.BLEND_NONE
    depthMode := DepthMode.OFF
    depthWriteEnabled := false
    currentUBO := 0
    currentTextures := [] }

/-- The device call selected by the `switch (mode)` of `setBlend`
(header lines 365-379): glDisable(GL_BLEND) for BLEND_NONE,
glBlendFunc(GL_SRC_ALPHA, GL_ONE_MINUS_SRC_ALPHA) for BLEND_ALPHA,
glBlendFunc(GL_ONE, GL_ONE) for BLEND_ADDITIVE. -/
def blendModeCall : BlendMode → GLCall
  | BlendMode.BLEND_NONE => GLCall.glDisableBlend
  | BlendMode.BLEND_ALPHA => GLCall.glBlendFuncAlpha
  | BlendMode.BLEND_ADDITIVE => GLCall.glBlendFuncAdditive

/-- The device call selected by the `switch (mode)` of `setDepthMode`
(header lines 388-391): glDisable(GL_DEPTH_TEST) for OFF,
glDepthFunc(GL_LESS) for LESS. -/
def depthModeCall : DepthMode → GLCall
  | DepthMode.OFF => GLCall.glDisableDepthTest
  | DepthMode.LESS => GLCall.glDepthFuncLess

/-- Transcription of `OpenGLRenderer::setBlend` (header lines 360-383):
glEnable(GL_BLEND) when the requested mode is not BLEND_NONE while the
cached mode is BLEND_NONE, then the mode-specific call when the requested
mode differs from the cached one, then the cache is updated unconditionally.
The `default: assert(false)` branch of the switch is unreachable since the
enum is total here. -/
def setBlend (mode : BlendMode) (s : GLState) : GLState × List GLCall :=
  let enable :=
    if mode ≠ BlendMode.BLEND_NONE ∧ s.blendMode = BlendMode.BLEND_NONE then
      [GLCall.glEnableBlend]
    else []
  let body := if mode ≠ s.blendMode then [blendModeCall mode] else []
  ({ s with blendMode := mode }, enable ++ body)

/-- Transcription of `OpenGLRenderer::setDepthMode` (header lines 385-394):
nothing happens when the requested mode equals the cached one; otherwise
glEnable(GL_DEPTH_TEST) is emitted first when the cached mode is OFF, then
the mode-specific call, and the cache is updated. -/
def setDepthMode (mode : DepthMode) (s : GLState) : GLState × List GLCall :=
  if mode ≠ s.depthMode then
    ({ s with depthMode := mode },
      (if s.depthMode = DepthMode.OFF then [GLCall.glEnableDepthTest] else [])
        ++ [depthModeCall mode])
  else (s, [])

/-- Transcription of `OpenGLRenderer::setDepthWrite` (header lines 396-401):
glDepthMask is emitted and the cache updated only when the requested flag
differs from the cached one. -/
def setDepthWrite (enable : Bool) (s : GLState) : GLState × List GLCall :=
  if enable ≠ s.depthWriteEnabled then
    ({ s with depthWriteEnabled := enable }, [GLCall.glDepthMask enable])
  else (s, [])

/-- Transcription of `OpenGLRenderer::attachUBO` (header lines 416-421):
glBindBuffer(GL_UNIFORM_BUFFER, buffer) is emitted and the cache updated
only when the requested buffer differs from the cached one. -/
def attachUBO (buffer : Nat) (s : GLState) : GLState × List GLCall :=
  if s.currentUBO ≠ buffer then
    ({ s with currentUBO := buffer }, [GLCall.glBindBufferUBO buffer])
  else (s, [])

/-- Modelled from the spec: the body of `OpenGLRenderer::useTexture`
(declared at header line 344) is not part of the sources.  Per the spec's
state-cache contract it compares the requested texture against the cached
binding for the unit and only emits the underlying bind-texture-to-unit
device call when different, then updates the cache. -/
def useTexture (unit : Nat) (tex : Nat) (s : GLState) : GLState × List GLCall :=
  if texLookup s.currentTextures unit = some tex then (s, [])
  else
    ({ s with currentTextures := texInsert s.currentTextures unit tex },
      [GLCall.bindTexture unit tex])

/-- Modelled from the spec: the body of `OpenGLRenderer::useDrawBuffer`
(declared at header line 342) is not part of the sources.  Per the spec's
draw contract it binds the geometry buffer only when different from the
cached one. -/
def useDrawBuffer (dbuff : Nat) (s : GLState) : GLState × List GLCall :=
  if s.currentDbuff = some dbuff then (s, [])
  else ({ s with currentDbuff := some dbuff }, [GLCall.bindDrawBuffer dbuff])

/-- Modelled from the spec: the body of `OpenGLRenderer::invalidate`
(declared at header line 326) is not part of the sources.  The spec requires
resetting every cached field to a sentinel "unknown" value distinct from
every requestable value.  The handle-typed caches declared in the header
admit such sentinels and are cleared to them (no draw buffer, empty texture
map, uniform buffer 0).  The blend, depth-mode and depth-write caches are
declared with the types BlendMode, DepthMode and bool, whose every value is
requestable, so no sentinel exists for them; they are reset to the header's
declared initial values (BLEND_NONE, OFF, false). -/
def invalidate (_s : GLState) : GLState := initialState

/-- One state-setting call of the device state cache, for reasoning about
sequences of setBlend / setDepthMode / setDepthWrite / useTexture calls. -/
inductive StateOp where
  | opBlend : BlendMode → StateOp
  | opDepthMode : DepthMode → StateOp
  | opDepthWrite : Bool → StateOp
  | opTexture : Nat → Nat → StateOp
deriving DecidableEq, Repr

/-- Dispatch one state-setting call to the corresponding member function. -/
def stepOp : StateOp → GLState → GLState × List GLCall
  | StateOp.opBlend m, s => setBlend m s
  | StateOp.opDepthMode m, s => setDepthMode m s
  | StateOp.opDepthWrite b, s => setDepthWrite b s
  | StateOp.opTexture u t, s => useTexture u t s

/-- Run a sequence of state-setting calls, concatenating the emitted device
calls in order. -/
def runOps : List StateOp → GLState → GLState × List GLCall
  | [], s => (s, [])
  | op :: rest, s =>
    let r := stepOp op s
    let r2 := runOps rest r.1
    (r2.1, r.2 ++ r2.2)

/-- Whether a state-setting call requests a value that differs from the
cached value for its state slot. -/
def differs : StateOp → GLState → Bool
  | StateOp.opBlend m, s => decide (m ≠ s.blendMode)
  | StateOp.opDepthMode m, s => decide (m ≠ s.depthMode)
  | StateOp.opDepthWrite b, s => decide (b ≠ s.depthWriteEnabled)
  | StateOp.opTexture u t, s => decide (texLookup s.currentTextures u ≠ some t)

/-- Whether a state-setting call additionally emits an enable toggle:
setBlend emits glEnable(GL_BLEND) on a BLEND_NONE-to-other transition and
setDepthMode emits glEnable(GL_DEPTH_TEST) on an OFF-to-other transition. -/
def enablesToggle : StateOp → GLState → Bool
  | StateOp.opBlend m, s =>
    decide (m ≠ BlendMode.BLEND_NONE ∧ s.blendMode = BlendMode.BLEND_NONE)
  | StateOp.opDepthMode m, s =>
    decide (m ≠ s.depthMode ∧ s.depthMode = DepthMode.OFF)
  | StateOp.opDepthWrite _, _ => false
  | StateOp.opTexture _ _, _ => false

/-- Number of calls in a sequence whose requested value differs from the
cached value for the slot at the time of the call. -/
def countDiffering : List StateOp → GLState → Nat
  | [], _ => 0
  | op :: rest, s =>
    (if differs op s then 1 else 0) + countDiffering rest (stepOp op s).1

/-- Number of calls in a sequence that emit an extra enable toggle. -/
def countEnables : List StateOp → GLState → Nat
  | [], _ => 0
  | op :: rest, s =>
    (if enablesToggle op s then 1 else 0) + countEnables rest (stepOp op s).1

/-- The per-draw state overrides of `Renderer::DrawParameters` (header lines
84-108) that the submission path applies through the state cache: texture
bindings, blend mode, depth mode and depth-write flag, with the header's
defaults (BLEND_NONE, DepthMode::LESS, depthWrite true).  The index
count/start and the material scalars do not influence state-change emission
and are kept only where the draw call needs them. -/
structure DrawParameters where
  count : Nat := 0
  start : Nat := 0
  textures : List Nat := []
  blendMode : BlendMode := BlendMode.BLEND_NONE
  depthMode : DepthMode := DepthMode.LESS
  depthWrite : Bool := true
deriving DecidableEq, Repr

/-- The `Renderer::RenderInstruction` record (header lines 116-128): a sort
key, a reference to a geometry buffer (an opaque handle here) and the draw
parameters.  The model transform does not influence state-change emission
and is elided. -/
structure RenderInstruction where
  sortKey : Nat
  dbuff : Nat
  drawInfo : DrawParameters
deriving DecidableEq, Repr

/-- Apply the texture bindings of a draw through the state cache, unit by
unit starting at the given unit index. -/
def applyTextures : Nat → List Nat → GLState → GLState × List GLCall
  | _, [], s => (s, [])
  | unit, t :: rest, s =>
    let r := useTexture unit t s
    let r2 := applyTextures (unit + 1) rest r.1
    (r2.1, r.2 ++ r2.2)

/-- Modelled from the spec: the body of `OpenGLRenderer::draw` (declared at
header line 319) is not part of the sources.  Per the spec's draw contract
it binds the geometry buffer if different from the cache, applies
blend/depth/depth-write/texture state from the parameters via the state
cache, uploads an ObjectUniformData block via the streaming buffer, then
issues a single indexed draw. -/
def draw (dbuff : Nat) (p : DrawParameters) (s : GLState) : GLState × List GLCall :=
  let r1 := useDrawBuffer dbuff s
  let r2 := setBlend p.blendMode r1.1
  let r3 := setDepthMode p.depthMode r2.1
  let r4 := setDepthWrite p.depthWrite r3.1
  let r5 := applyTextures 0 p.textures r4.1
  (r5.1,
    r1.2 ++ r2.2 ++ r3.2 ++ r4.2 ++ r5.2
      ++ [GLCall.uploadObjectUBO, GLCall.glDrawElements p.count p.start])

/-- Modelled from the spec: the body of `OpenGLRenderer::drawBatched`
(declared at header line 324) is not part of the sources.  Per the spec it
iterates the pre-sorted instruction sequence, applying draw semantics per
instruction without re-ordering. -/
def drawBatched : List RenderInstruction → GLState → GLState × List GLCall
  | [], s => (s, [])
  | i :: rest, s =>
    let r := draw i.dbuff i.drawInfo s
    let r2 := drawBatched rest r.1
    (r2.1, r.2 ++ r2.2)

/-- Concrete geometry-buffer handle used by the batched-draw examples. -/
def bufX : Nat := 7

/-- Draw parameters requesting alpha blending, all other fields default. -/
def paramsAlpha : DrawParameters := { blendMode := BlendMode.BLEND_ALPHA }

/-- Draw parameters requesting additive blending, all other fields default. -/
def paramsAdditive : DrawParameters := { blendMode := BlendMode.BLEND_ADDITIVE }

/-- Instruction A of the batched-draw example: buffer X, blend ALPHA. -/
def instrA : RenderInstruction := { sortKey := 0, dbuff := bufX, drawInfo := paramsAlpha }

/-- Instruction B of the batched-draw example: buffer X, blend ALPHA. -/
def instrB : RenderInstruction := { sortKey := 1, dbuff := bufX, drawInfo := paramsAlpha }

/-- Variant of instruction B with blend ADDITIVE instead of ALPHA. -/
def instrB2 : RenderInstruction := { sortKey := 1, dbuff := bufX, drawInfo := paramsAdditive }

/-- The maximum depth of the debug group stack, from the header's
`#define MAX_DEBUG_DEPTH 5` (line 22). -/
def MAX_DEBUG_DEPTH : Nat := 5

/-- The per-scope profiling counters of `Renderer::ProfileInfo` (header
lines 224-232).  The GPU timer fields hold whatever the timer query reports
and carry no semantics in this model. -/
structure ProfileInfo where
  timerStart : Nat := 0
  duration : Nat := 0
  primitives : Nat := 0
  draws : Nat := 0
  textures : Nat := 0
  buffers : Nat := 0
  uploads : Nat := 0
deriving DecidableEq, Repr

/-- The profiling state of `OpenGLRenderer`: the fixed array
`ProfileInfo profileInfo[MAX_DEBUG_DEPTH]` (header line 426), the nesting
depth `currentDebugDepth` (header line 429) and the per-frame draw counter
of the base class (header line 250). -/
structure ProfState where
  currentDebugDepth : Nat
  profileInfo : List ProfileInfo
  drawCounter : Nat
deriving DecidableEq, Repr

/-- The initial profiling state: depth 0, all slots zeroed, no draws. -/
def initProfState : ProfState :=
  { currentDebugDepth := 0
    profileInfo := List.replicate MAX_DEBUG_DEPTH {}
    drawCounter := 0 }

/-- Modelled from the spec: the body of `OpenGLRenderer::pushDebugGroup`
(declared at header line 328) is not part of the sources.  Per the spec it
is valid only when the depth is below MAX_DEBUG_DEPTH (a deeper push is a
fatal precondition violation, modelled as `none`); it resets the
ProfileInfo at the new depth, starts the GPU timer and increments the
depth. -/
def pushDebugGroup (s : ProfState) : Option ProfState :=
  if s.currentDebugDepth < MAX_DEBUG_DEPTH then
    some { s with
      currentDebugDepth := s.currentDebugDepth + 1
      profileInfo := s.profileInfo.set s.currentDebugDepth {} }
  else none

/-- Modelled from the spec: the body of `OpenGLRenderer::popDebugGroup`
(declared at header line 330) is not part of the sources.  Per the spec it
is valid only when the depth is positive (a pop at depth 0 is rejected,
modelled as `none`); it finalizes and returns the ProfileInfo at the
current depth and decrements the depth. -/
def popDebugGroup (s : ProfState) : Option (ProfState × ProfileInfo) :=
  if 0 < s.currentDebugDepth then
    some ({ s with currentDebugDepth := s.currentDebugDepth - 1 },
      s.profileInfo.getD (s.currentDebugDepth - 1) {})
  else none

/-- Increment the uploads counter of a ProfileInfo slot. -/
def bumpUploads (p : ProfileInfo) : ProfileInfo := { p with uploads := p.uploads + 1 }

/-- Increment the draws counter of a ProfileInfo slot. -/
def bumpDraws (p : ProfileInfo) : ProfileInfo := { p with draws := p.draws + 1 }

/-- The profiling increment of `OpenGLRenderer::uploadUBO` (header lines
403-411): when a profiling scope is active, the uploads counter of
profileInfo[currentDebugDepth - 1] is incremented. -/
def uploadTick (s : ProfState) : ProfState :=
  if 0 < s.currentDebugDepth then
    let slot := bumpUploads (s.profileInfo.getD (s.currentDebugDepth - 1) {})
    { s with profileInfo := s.profileInfo.set (s.currentDebugDepth - 1) slot }
  else s

/-- Modelled from the spec: the draw-counting of `OpenGLRenderer::draw`
(body not part of the sources).  Per the spec a draw increments the
per-frame draw counter and, if a profiling scope is active, the current
scope's draw counter. -/
def drawTick (s : ProfState) : ProfState :=
  if 0 < s.currentDebugDepth then
    let slot := bumpDraws (s.profileInfo.getD (s.currentDebugDepth - 1) {})
    { s with
      drawCounter := s.drawCounter + 1
      profileInfo := s.profileInfo.set (s.currentDebugDepth - 1) slot }
  else { s with drawCounter := s.drawCounter + 1 }

/-- A profiled operation: a draw, a uniform upload, or a nested debug
scope containing further operations. -/
inductive PItem where
  | draw : PItem
  | upload : PItem
  | scope : List PItem → PItem

/-- Run a list of profiled operations against the profiling state.  A scope
pushes a debug group, runs its body, then pops; a precondition violation in
push or pop yields `none`. -/
def runItems : List PItem → ProfState → Option ProfState
  | [], s => some s
  | PItem.draw :: rest, s => runItems rest (drawTick s)
  | PItem.upload :: rest, s => runItems rest (uploadTick s)
  | PItem.scope body :: rest, s =>
    match pushDebugGroup s with
    | none => none
    | some s1 =>
      match runItems body s1 with
      | none => none
      | some s2 =>
        match popDebugGroup s2 with
        | none => none
        | some r => runItems rest r.1

/-- Run one debug scope: push, run the body, pop, and return the final
state together with the ProfileInfo returned by the pop. -/
def runScope (body : List PItem) (s : ProfState) : Option (ProfState × ProfileInfo) :=
  match pushDebugGroup s with
  | none => none
  | some s1 =>
    match runItems body s1 with
    | none => none
    | some s2 => popDebugGroup s2

/-- Number of draws at the top level of an operation list (not inside a
nested scope). -/
def directDraws : List PItem → Nat
  | [] => 0
  | PItem.draw :: rest => directDraws rest + 1
  | PItem.upload :: rest => directDraws rest
  | PItem.scope _ :: rest => directDraws rest

/-- Number of uploads at the top level of an operation list (not inside a
nested scope). -/
def directUploads : List PItem → Nat
  | [] => 0
  | PItem.draw :: rest => directUploads rest
  | PItem.upload :: rest => directUploads rest + 1
  | PItem.scope _ :: rest => directUploads rest

/-- Total number of uploads in an operation list, nested scopes included. -/
def totalUploads : List PItem → Nat
  | [] => 0
  | PItem.draw :: rest => totalUploads rest
  | PItem.upload :: rest => totalUploads rest + 1
  | PItem.scope body :: rest => totalUploads body + totalUploads rest

/-- Maximum scope-nesting depth of an operation list. -/
def maxNest : List PItem → Nat
  | [] => 0
  | PItem.draw :: rest => maxNest rest
  | PItem.upload :: rest => maxNest rest
  | PItem.scope body :: rest => max (maxNest body + 1) (maxNest rest)

/-- Iterate pushDebugGroup the given number of times. -/
def pushesN : Nat → ProfState → Option ProfState
  | 0, s => some s
  | n + 1, s =>
    match pushDebugGroup s with
    | none => none
    | some s1 => pushesN n s1

/-- The uniform streaming buffer record `OpenGLRenderer::Buffer` (header
lines 333-340): device buffer name, write cursor, slot count, slot size and
total byte size. -/
structure Buffer where
  name : Nat := 0
  currentEntry : Nat := 0
  entryCount : Nat := 0
  entrySize : Nat := 0
  bufferSize : Nat := 0
deriving DecidableEq, Repr

/-- Modelled from the spec: the body of `OpenGLRenderer::uploadUBOEntry`
(declared at header line 423) is not part of the sources.  Per the spec an
upload writes into the slot at currentEntry, fails if the size exceeds
entrySize (leaving the buffer unchanged), and advances
currentEntry = (currentEntry + 1) mod entryCount after a successful write.
The boolean is the success flag. -/
def uploadUBOEntry (buffer : Buffer) (size : Nat) : Bool × Buffer :=
  if buffer.entrySize < size then (false, buffer)
  else
    (true, { buffer with currentEntry := (buffer.currentEntry + 1) % buffer.entryCount })

/-- Iterate uploads of a fixed size the given number of times, keeping the
resulting buffer. -/
def uploadN : Nat → Nat → Buffer → Buffer
  | 0, _, b => b
  | n + 1, size, b => uploadN n size (uploadUBOEntry b size).2

/-- Association-list lookup for the `std::map<std::string, GLint> uniforms`
cache of OpenGLShaderProgram (header line 260). -/
def lookupStr : List (String × Int) → String → Option Int
  | [], _ => none
  | (k, v) :: rest, name => if k = name then some v else lookupStr rest name

/-- Association-list insert-or-replace for the uniform-location cache. -/
def insertStr : List (String × Int) → String → Int → List (String × Int)
  | [], name, loc => [(name, loc)]
  | (k, v) :: rest, name, loc =>
    if k = name then (k, loc) :: rest else (k, v) :: insertStr rest name loc

/-- The `OpenGLRenderer::OpenGLShaderProgram` state (header lines 258-285):
the device program handle and the per-program uniform-location cache.
Uniform names are modelled as NUL-free strings, under which the
`name.c_str()` round-trip of the source is the identity. -/
structure OpenGLShaderProgram where
  program : Nat
  uniforms : List (String × Int)
deriving DecidableEq, Repr

/-- Transcription of `OpenGLShaderProgram::getUniformLocation` (header
lines 274-284): on a cache miss the device is queried (the query function
models glGetUniformLocation on this program, and may return -1) and the
result is stored; on a hit the stored value is returned.  The result is the
location, the successor program state and the number of device queries
issued (0 or 1). -/
def getUniformLocation (query : String → Int) (p : OpenGLShaderProgram)
    (name : String) : Int × OpenGLShaderProgram × Nat :=
  match lookupStr p.uniforms name with
  | none =>
    let loc := query name
    (loc, { p with uniforms := insertStr p.uniforms name loc }, 1)
  | some v => (v, p, 0)

/-- Number of occurrences of a given device call in an emitted call list. -/
def countCall (c : GLCall) : List GLCall → Nat
  | [] => 0
  | x :: rest => (if x = c then 1 else 0) + countCall c rest

/-- Concrete streaming buffer used as a witness input: three 16-byte slots,
write cursor at slot 2. -/
def bufEx : Buffer :=
  { name := 1, currentEntry := 2, entryCount := 3, entrySize := 16, bufferSize := 48 }

/-- The profiling state reached by one pushDebugGroup from the initial
state. -/
def pushedOnce : ProfState :=
  { currentDebugDepth := 1
    profileInfo := (List.replicate MAX_DEBUG_DEPTH ({} : ProfileInfo)).set 0 {}
    drawCounter := 0 }

/-! ## Theorems -/

/-- Per-call device invocation count of the state cache: a call emits one
mode-specific invocation when its requested value differs from the cached
value, plus one enable toggle on a blend NONE-to-other or depth
OFF-to-other transition, and nothing otherwise. -/
theorem stepOp_call_count (op : StateOp) (s : GLState) :
    (stepOp op s).2.length =
      (if differs op s then 1 else 0) + (if enablesToggle op s then 1 else 0) := by
  obtain ⟨db, bm, dpm, dw, ubo, tex⟩ := s
  cases op with
  | opBlend m =>
    cases m <;> cases bm <;>
      simp [stepOp, setBlend, differs, enablesToggle, blendModeCall]
  | opDepthMode m =>
    cases m <;> cases dpm <;>
      simp [stepOp, setDepthMode, differs, enablesToggle, depthModeCall]
  | opDepthWrite b =>
    cases b <;> cases dw <;>
      simp [stepOp, setDepthWrite, differs, enablesToggle]
  | opTexture u t =>
    simp only [stepOp, useTexture, differs, enablesToggle]
    by_cases h : texLookup tex u = some t
    · simp [h]
    · simp [h]

/-- Claim C1 (amended): for every sequence of setBlend / setDepthMode /
setDepthWrite / useTexture calls from any cached state, the number of
device invocations emitted equals the number of calls whose requested value
differs from the cached value for that slot at the time of the call PLUS
the number of those calls that transition blending out of BLEND_NONE or
depth testing out of OFF (which emit an additional enable toggle);
equivalently, each call emits its mode-specific invocation exactly when its
requested value differs, and a redundant call emits zero invocations. -/
theorem c1_state_cache_suppression :
    (∀ (ops : List StateOp) (s : GLState),
        (runOps ops s).2.length = countDiffering ops s + countEnables ops s) ∧
    (∀ (op : StateOp) (s : GLState),
        (stepOp op s).2.length =
          (if differs op s then 1 else 0) + (if enablesToggle op s then 1 else 0)) := by
  constructor
  · intro ops
    induction ops with
    | nil => intro s; simp [runOps, countDiffering, countEnables]
    | cons op rest ih =>
      intro s
      simp only [runOps, countDiffering, countEnables, List.length_append,
        stepOp_call_count, ih]
      omega
  · exact stepOp_call_count

/-- Claim C1 counterexample: from the initial cached state (blend mode
BLEND_NONE) the single call setBlend(BLEND_ALPHA) requests a differing
value once, yet emits two device invocations, glEnable(GL_BLEND) and
glBlendFunc: the invocation count is not equal to the differing-call
count. -/
theorem c1_counterexample :
    (runOps [StateOp.opBlend BlendMode.BLEND_ALPHA] initialState).2 =
      [GLCall.glEnableBlend, GLCall.glBlendFuncAlpha] ∧
    (runOps [StateOp.opBlend BlendMode.BLEND_ALPHA] initialState).2.length = 2 ∧
    countDiffering [StateOp.opBlend BlendMode.BLEND_ALPHA] initialState = 1 := by
  decide

/-- Claim C2: setBlend emits the device blend-enable toggle exactly when
the cached blend mode is BLEND_NONE and the requested mode is not
BLEND_NONE (one toggle, whichever non-NONE mode is requested), setDepthMode
emits the depth-test-enable toggle exactly when the cached depth mode is
OFF and the requested mode is not OFF, and in both cases the mode-specific
device call is emitted exactly when the requested mode differs from the
complete cached mode value. -/
theorem c2_enable_toggle_conditions :
    ∀ (m : BlendMode) (dm : DepthMode) (s : GLState),
      (countCall GLCall.glEnableBlend (setBlend m s).2 =
        if s.blendMode = BlendMode.BLEND_NONE ∧ m ≠ BlendMode.BLEND_NONE then 1 else 0) ∧
      (countCall (blendModeCall m) (setBlend m s).2 = if m ≠ s.blendMode then 1 else 0) ∧
      (countCall GLCall.glEnableDepthTest (setDepthMode dm s).2 =
        if s.depthMode = DepthMode.OFF ∧ dm ≠ DepthMode.OFF then 1 else 0) ∧
      (countCall (depthModeCall dm) (setDepthMode dm s).2 = if dm ≠ s.depthMode then 1 else 0) := by
  intro m dm s
  obtain ⟨db, bm, dpm, dw, ubo, tex⟩ := s
  refine ⟨?_, ?_, ?_, ?_⟩
  · cases m <;> cases bm <;> simp [setBlend, blendModeCall, countCall]
  · cases m <;> cases bm <;> simp [setBlend, blendModeCall, countCall]
  · cases dm <;> cases dpm <;> simp [setDepthMode, depthModeCall, countCall]
  · cases dm <;> cases dpm <;> simp [setDepthMode, depthModeCall, countCall]

/-- Claim C3 counterexample: from a prior cached state with depth writes
enabled, calling invalidate() and then setDepthWrite(false) emits no device
invocation at all, although the same call without the intervening
invalidate() would have emitted glDepthMask(GL_FALSE). -/
theorem c3_counterexample :
    (setDepthWrite false (invalidate { initialState with depthWriteEnabled := true })).2 = [] ∧
    (setDepthWrite false { initialState with depthWriteEnabled := true }).2 =
      [GLCall.glDepthMask false] := by
  decide

/-- Claim C3 (amended): after invalidate(), a state-setting call on a
handle-typed slot always emits a device invocation — any useTexture call
(the texture map is cleared to the sentinel empty map), any useDrawBuffer
call (the buffer cache is cleared to the null sentinel) and any attachUBO
call with a nonzero buffer; but the blend, depth-mode and depth-write
caches are declared with types whose every value is requestable, so no
choice of invalidate can make those setters always emit: whatever state
invalidate produces, the call requesting the residual cached value emits
zero device invocations. -/
theorem c3_invalidate_partial :
    (∀ (s : GLState) (u t : Nat), (useTexture u t (invalidate s)).2.length = 1) ∧
    (∀ (s : GLState) (d : Nat), (useDrawBuffer d (invalidate s)).2.length = 1) ∧
    (∀ (s : GLState) (b : Nat),
        (attachUBO b (invalidate s)).2.length = if b = 0 then 0 else 1) ∧
    (∀ (inv : GLState → GLState) (s : GLState),
        ∃ (b : Bool) (m : BlendMode) (dm : DepthMode),
          (setDepthWrite b (inv s)).2 = [] ∧ (setBlend m (inv s)).2 = [] ∧
          (setDepthMode dm (inv s)).2 = []) := by
  refine ⟨?_, ?_, ?_, ?_⟩
  · intro s u t; simp [invalidate, initialState, useTexture, texLookup]
  · intro s d; simp [invalidate, initialState, useDrawBuffer]
  · intro s b
    by_cases hb : b = 0
    · simp [invalidate, initialState, attachUBO, hb]
    · simp [invalidate, initialState, attachUBO, hb, Ne.symm hb]
  · intro inv s
    refine ⟨(inv s).depthWriteEnabled, (inv s).blendMode, (inv s).depthMode, ?_, ?_, ?_⟩
    · simp [setDepthWrite]
    · simp only [setBlend]
      have h : ¬((inv s).blendMode ≠ BlendMode.BLEND_NONE ∧
          (inv s).blendMode = BlendMode.BLEND_NONE) := fun hc => hc.1 hc.2
      simp [h]
    · simp [setDepthMode]

/-- Claim C9: after setBlend, setDepthMode, setDepthWrite or attachUBO
returns, the corresponding cached field holds the requested value, whether
or not a device invocation was emitted. -/
theorem c9_cache_coherence :
    ∀ (m : BlendMode) (dm : DepthMode) (b : Bool) (u : Nat) (s : GLState),
      (setBlend m s).1.blendMode = m ∧
      (setDepthMode dm s).1.depthMode = dm ∧
      (setDepthWrite b s).1.depthWriteEnabled = b ∧
      (attachUBO u s).1.currentUBO = u := by
  intro m dm b u s
  refine ⟨?_, ?_, ?_, ?_⟩
  · simp [setBlend]
  · by_cases h : dm = s.depthMode <;> simp [setDepthMode, h]
  · by_cases h : b = s.depthWriteEnabled <;> simp [setDepthWrite, h]
  · by_cases h : s.currentUBO = u <;> simp [attachUBO, h]

/-- Cursor arithmetic of the streaming buffer: after n uploads of an
admissible size the write cursor sits at (start + n) mod entryCount, and
the slot count is unchanged. -/
theorem uploadN_currentEntry (size : Nat) :
    ∀ (n : Nat) (b : Buffer), size ≤ b.entrySize → b.currentEntry < b.entryCount →
      (uploadN n size b).currentEntry = (b.currentEntry + n) % b.entryCount ∧
      (uploadN n size b).entryCount = b.entryCount := by
  intro n
  induction n with
  | zero =>
    intro b _ hcur
    simp [uploadN, Nat.mod_eq_of_lt hcur]
  | succ k ih =>
    intro b hsize hcur
    have hpos : 0 < b.entryCount := lt_of_le_of_lt (Nat.zero_le _) hcur
    have hstep : (uploadUBOEntry b size).2 =
        { b with currentEntry := (b.currentEntry + 1) % b.entryCount } := by
      simp [uploadUBOEntry, Nat.not_lt.mpr hsize]
    have h := ih ((uploadUBOEntry b size).2)
      (by rw [hstep]; exact hsize)
      (by rw [hstep]; exact Nat.mod_lt _ hpos)
    rw [uploadN, h.1, h.2, hstep]
    constructor
    · show ((b.currentEntry + 1) % b.entryCount + k) % b.entryCount = _
      rw [Nat.mod_add_mod]
      congr 1
      omega
    · rfl

/-- Claim C5: each successful streaming-buffer upload advances the write
cursor modulo entryCount, so from any in-range starting cursor the cursor
returns to its initial slot after exactly entryCount successful uploads,
and it always stays below entryCount. -/
theorem c5_cursor_periodic (b : Buffer) (size : Nat)
    (hsize : size ≤ b.entrySize) (hcur : b.currentEntry < b.entryCount) :
    (uploadN b.entryCount size b).currentEntry = b.currentEntry ∧
    ∀ n : Nat, (uploadN n size b).currentEntry < b.entryCount := by
  constructor
  · rw [(uploadN_currentEntry size b.entryCount b hsize hcur).1,
      Nat.add_mod_right, Nat.mod_eq_of_lt hcur]
  · intro n
    rw [(uploadN_currentEntry size n b hsize hcur).1]
    exact Nat.mod_lt _ (lt_of_le_of_lt (Nat.zero_le _) hcur)

/-- Claim C5 witness: a three-slot buffer of 16-byte slots with the cursor
at slot 2 returns to slot 2 after three 16-byte uploads, and the cursor
stays in range after seven uploads. -/
theorem c5_witness :
    16 ≤ bufEx.entrySize ∧ bufEx.currentEntry < bufEx.entryCount ∧
    (uploadN bufEx.entryCount 16 bufEx).currentEntry = bufEx.currentEntry ∧
    (uploadN 7 16 bufEx).currentEntry < bufEx.entryCount :=
  ⟨by decide, by decide,
    (c5_cursor_periodic bufEx 16 (by decide) (by decide)).1,
    (c5_cursor_periodic bufEx 16 (by decide) (by decide)).2 7⟩

/-- Claim C6: an upload whose size exceeds the slot size fails and leaves
the buffer, in particular its currentEntry cursor, unchanged. -/
theorem c6_oversized_upload_fails (b : Buffer) (size : Nat)
    (h : b.entrySize < size) :
    uploadUBOEntry b size = (false, b) := by
  simp [uploadUBOEntry, h]

/-- Claim C6 witness: uploading 17 bytes into a buffer with 16-byte slots
fails and leaves the buffer unchanged. -/
theorem c6_witness :
    bufEx.entrySize < 17 ∧ uploadUBOEntry bufEx 17 = (false, bufEx) :=
  ⟨by decide, c6_oversized_upload_fails bufEx 17 (by decide)⟩

/-- Claim C7: pushDebugGroup succeeds exactly when the depth is below
MAX_DEBUG_DEPTH (so a sixth consecutive push from depth 0 is rejected),
popDebugGroup succeeds exactly when the depth is positive, a successful
push increments the depth keeping it at most MAX_DEBUG_DEPTH, a successful
pop decrements the depth and returns the profileInfo slot at the old depth
minus one, and the slot indices touched (the old depth for push, the old
depth minus one for pop) stay below MAX_DEBUG_DEPTH. -/
theorem c7_debug_stack_bounds :
    (∀ s : ProfState, (pushDebugGroup s).isSome ↔ s.currentDebugDepth < MAX_DEBUG_DEPTH) ∧
    (∀ s : ProfState, (popDebugGroup s).isSome ↔ 0 < s.currentDebugDepth) ∧
    (∀ s t : ProfState, pushDebugGroup s = some t →
        t.currentDebugDepth = s.currentDebugDepth + 1 ∧
        t.currentDebugDepth ≤ MAX_DEBUG_DEPTH ∧
        s.currentDebugDepth < MAX_DEBUG_DEPTH) ∧
    (∀ (s t : ProfState) (i : ProfileInfo), popDebugGroup s = some (t, i) →
        t.currentDebugDepth = s.currentDebugDepth - 1 ∧
        i = s.profileInfo.getD (s.currentDebugDepth - 1) {} ∧
        (s.currentDebugDepth ≤ MAX_DEBUG_DEPTH →
          s.currentDebugDepth - 1 < MAX_DEBUG_DEPTH)) ∧
    (pushesN MAX_DEBUG_DEPTH initProfState).isSome = true ∧
    pushesN (MAX_DEBUG_DEPTH + 1) initProfState = none := by
  refine ⟨?_, ?_, ?_, ?_, by decide, by decide⟩
  · intro s
    by_cases h : s.currentDebugDepth < MAX_DEBUG_DEPTH <;> simp [pushDebugGroup, h]
  · intro s
    by_cases h : 0 < s.currentDebugDepth <;> simp [popDebugGroup, h]
  · intro s t h
    by_cases hc : s.currentDebugDepth < MAX_DEBUG_DEPTH
    · simp only [pushDebugGroup, if_pos hc, Option.some.injEq] at h
      subst h
      refine ⟨rfl, ?_, hc⟩
      show s.currentDebugDepth + 1 ≤ MAX_DEBUG_DEPTH
      omega
    · simp [pushDebugGroup, hc] at h
  · intro s t i h
    by_cases hc : 0 < s.currentDebugDepth
    · simp only [popDebugGroup, if_pos hc, Option.some.injEq, Prod.mk.injEq] at h
      obtain ⟨ht, hi⟩ := h
      subst ht
      exact ⟨rfl, hi.symm, fun hle => by omega⟩
    · simp [popDebugGroup, hc] at h

/-- Claim C7 witness: from the initial state a push succeeds, increments
the depth to 1, and the depth stays at most MAX_DEBUG_DEPTH. -/
theorem c7_witness :
    pushDebugGroup initProfState = some pushedOnce ∧
    (pushedOnce.currentDebugDepth = initProfState.currentDebugDepth + 1 ∧
      pushedOnce.currentDebugDepth ≤ MAX_DEBUG_DEPTH ∧
      initProfState.currentDebugDepth < MAX_DEBUG_DEPTH) :=
  ⟨by decide, c7_debug_stack_bounds.2.2.1 initProfState pushedOnce (by decide)⟩

/-- Claim C8 (amended): for draw instructions A (buffer X, blend ALPHA) and
B (buffer X, blend ALPHA) submitted consecutively from a cache holding
neither buffer X nor a non-NONE blend mode, exactly one buffer-bind device
call, one blend-enable device call and one blend-function device call occur
for the pair; if B instead uses blend ADDITIVE, there is still exactly one
buffer-bind and one blend-enable device call, and the blend-function call
now occurs twice (once for ALPHA, once for ADDITIVE). -/
theorem c8_batched_state_sharing :
    (countCall (GLCall.bindDrawBuffer bufX) (drawBatched [instrA, instrB] initialState).2 = 1 ∧
      countCall GLCall.glEnableBlend (drawBatched [instrA, instrB] initialState).2 = 1 ∧
      countCall GLCall.glBlendFuncAlpha (drawBatched [instrA, instrB] initialState).2 = 1 ∧
      countCall GLCall.glBlendFuncAdditive (drawBatched [instrA, instrB] initialState).2 = 0) ∧
    (countCall (GLCall.bindDrawBuffer bufX) (drawBatched [instrA, instrB2] initialState).2 = 1 ∧
      countCall GLCall.glEnableBlend (drawBatched [instrA, instrB2] initialState).2 = 1 ∧
      countCall GLCall.glBlendFuncAlpha (drawBatched [instrA, instrB2] initialState).2 = 1 ∧
      countCall GLCall.glBlendFuncAdditive (drawBatched [instrA, instrB2] initialState).2 = 1) := by
  decide

/-- Claim C8 counterexample: when B uses blend ADDITIVE, the pair still
produces exactly one buffer-bind and one blend-enable device call, not two
of each as claimed (only the blend-function call occurs twice). -/
theorem c8_counterexample :
    countCall (GLCall.bindDrawBuffer bufX) (drawBatched [instrA, instrB2] initialState).2 = 1 ∧
    countCall GLCall.glEnableBlend (drawBatched [instrA, instrB2] initialState).2 = 1 ∧
    countCall GLCall.glBlendFuncAlpha (drawBatched [instrA, instrB2] initialState).2 +
      countCall GLCall.glBlendFuncAdditive (drawBatched [instrA, instrB2] initialState).2 = 2 := by
  decide

/-- Lookup after insert-or-replace finds the inserted value. -/
theorem lookupStr_insertStr_self (l : List (String × Int)) (name : String) (v : Int) :
    lookupStr (insertStr l name v) name = some v := by
  induction l with
  | nil => simp [insertStr, lookupStr]
  | cons p rest ih =>
    obtain ⟨k, w⟩ := p
    by_cases h : k = name <;> simp [insertStr, lookupStr, h, ih]

/-- Claim C10: the first getUniformLocation call for a name queries the
device once and stores the result (whatever it is, including -1), a call
for a cached name returns the stored value with zero device queries and an
unchanged cache, and two consecutive calls with the same name return equal
values with the second issuing no device query. -/
theorem c10_uniform_location_cache :
    (∀ (query : String → Int) (p : OpenGLShaderProgram) (name : String),
        lookupStr p.uniforms name = none →
        getUniformLocation query p name =
          (query name, { p with uniforms := insertStr p.uniforms name (query name) }, 1)) ∧
    (∀ (query : String → Int) (p : OpenGLShaderProgram) (name : String) (v : Int),
        lookupStr p.uniforms name = some v →
        getUniformLocation query p name = (v, p, 0)) ∧
    (∀ (query : String → Int) (p : OpenGLShaderProgram) (name : String),
        (getUniformLocation query (getUniformLocation query p name).2.1 name).1 =
          (getUniformLocation query p name).1 ∧
        (getUniformLocation query (getUniformLocation query p name).2.1 name).2.2 = 0) := by
  refine ⟨?_, ?_, ?_⟩
  · intro query p name h
    simp [getUniformLocation, h]
  · intro query p name v h
    simp [getUniformLocation, h]
  · intro query p name
    cases h : lookupStr p.uniforms name with
    | none => simp [getUniformLocation, h, lookupStr_insertStr_self]
    | some v => simp [getUniformLocation, h]

/-- Claim C10 witness: on a program with an empty cache, looking up a name
the device reports as not found (-1) queries the device once and stores -1
in the cache. -/
theorem c10_witness :
    lookupStr (OpenGLShaderProgram.mk 1 []).uniforms "u_colour" = none ∧
    getUniformLocation (fun _ => -1) (OpenGLShaderProgram.mk 1 []) "u_colour" =
      (-1, OpenGLShaderProgram.mk 1 [("u_colour", -1)], 1) :=
  ⟨rfl, c10_uniform_location_cache.1 (fun _ => -1) (OpenGLShaderProgram.mk 1 []) "u_colour" rfl⟩

/-- A draw leaves the debug-stack depth unchanged. -/
theorem drawTick_depth (s : ProfState) :
    (drawTick s).currentDebugDepth = s.currentDebugDepth := by
  by_cases h : 0 < s.currentDebugDepth <;> simp [drawTick, h]

/-- A draw leaves the number of profiling slots unchanged. -/
theorem drawTick_length (s : ProfState) :
    (drawTick s).profileInfo.length = s.profileInfo.length := by
  by_cases h : 0 < s.currentDebugDepth <;> simp [drawTick, h]

/-- A draw leaves every profiling slot strictly below the innermost one
unchanged. -/
theorem drawTick_getD_ne (s : ProfState) (j : Nat)
    (hj : j + 1 < s.currentDebugDepth) :
    (drawTick s).profileInfo.getD j {} = s.profileInfo.getD j {} := by
  have h0 : 0 < s.currentDebugDepth := by omega
  have hne : s.currentDebugDepth - 1 ≠ j := by omega
  simp [drawTick, h0, List.getD_eq_getElem?_getD, List.getElem?_set_ne hne]

/-- A draw bumps exactly the draws counter of the innermost profiling
slot. -/
theorem drawTick_getD_cur (s : ProfState) (h0 : 0 < s.currentDebugDepth)
    (hlt : s.currentDebugDepth - 1 < s.profileInfo.length) :
    (drawTick s).profileInfo.getD (s.currentDebugDepth - 1) {} =
      bumpDraws (s.profileInfo.getD (s.currentDebugDepth - 1) {}) := by
  simp [drawTick, h0, List.getD_eq_getElem?_getD, List.getElem?_set_self hlt]

/-- An upload leaves the debug-stack depth unchanged. -/
theorem uploadTick_depth (s : ProfState) :
    (uploadTick s).currentDebugDepth = s.currentDebugDepth := by
  by_cases h : 0 < s.currentDebugDepth <;> simp [uploadTick, h]

/-- An upload leaves the number of profiling slots unchanged. -/
theorem uploadTick_length (s : ProfState) :
    (uploadTick s).profileInfo.length = s.profileInfo.length := by
  by_cases h : 0 < s.currentDebugDepth <;> simp [uploadTick, h]

/-- An upload leaves every profiling slot strictly below the innermost one
unchanged. -/
theorem uploadTick_getD_ne (s : ProfState) (j : Nat)
    (hj : j + 1 < s.currentDebugDepth) :
    (uploadTick s).profileInfo.getD j {} = s.profileInfo.getD j {} := by
  have h0 : 0 < s.currentDebugDepth := by omega
  have hne : s.currentDebugDepth - 1 ≠ j := by omega
  simp [uploadTick, h0, List.getD_eq_getElem?_getD, List.getElem?_set_ne hne]

/-- An upload bumps exactly the uploads counter of the innermost profiling
slot. -/
theorem uploadTick_getD_cur (s : ProfState) (h0 : 0 < s.currentDebugDepth)
    (hlt : s.currentDebugDepth - 1 < s.profileInfo.length) :
    (uploadTick s).profileInfo.getD (s.currentDebugDepth - 1) {} =
      bumpUploads (s.profileInfo.getD (s.currentDebugDepth - 1) {}) := by
  simp [uploadTick, h0, List.getD_eq_getElem?_getD, List.getElem?_set_self hlt]

/-- Attribution of profiled operations: running an operation list whose
scope nesting fits in the remaining stack capacity succeeds, preserves the
depth and the slot count, leaves every slot strictly below the innermost
one untouched, and adds exactly the list's direct (top-level) draw and
upload counts to the innermost slot. -/
theorem runItems_profile : ∀ (items : List PItem) (s : ProfState),
    s.currentDebugDepth + maxNest items ≤ MAX_DEBUG_DEPTH →
    s.profileInfo.length = MAX_DEBUG_DEPTH →
    ∃ s2, runItems items s = some s2 ∧
      s2.currentDebugDepth = s.currentDebugDepth ∧
      s2.profileInfo.length = MAX_DEBUG_DEPTH ∧
      (∀ j, j + 1 < s.currentDebugDepth →
        s2.profileInfo.getD j {} = s.profileInfo.getD j {}) ∧
      (0 < s.currentDebugDepth →
        (s2.profileInfo.getD (s.currentDebugDepth - 1) {}).draws =
          (s.profileInfo.getD (s.currentDebugDepth - 1) {}).draws + directDraws items ∧
        (s2.profileInfo.getD (s.currentDebugDepth - 1) {}).uploads =
          (s.profileInfo.getD (s.currentDebugDepth - 1) {}).uploads + directUploads items)
  | [], s, hnest, hlen => by
    refine ⟨s, by simp [runItems], rfl, hlen, fun j _ => rfl, fun _ => ?_⟩
    simp [directDraws, directUploads]
  | PItem.draw :: rest, s, hnest, hlen => by
    have hmn : maxNest (PItem.draw :: rest) = maxNest rest := by simp [maxNest]
    rw [hmn] at hnest
    obtain ⟨s2, hrun, hd, hl, hslots, hcur⟩ :=
      runItems_profile rest (drawTick s)
        (by rw [drawTick_depth]; exact hnest)
        (by rw [drawTick_length]; exact hlen)
    rw [drawTick_depth] at hd hslots hcur
    refine ⟨s2, by simpa [runItems] using hrun, hd, hl, ?_, ?_⟩
    · intro j hj
      rw [hslots j hj, drawTick_getD_ne s j hj]
    · intro h0
      have hidx : s.currentDebugDepth - 1 < s.profileInfo.length := by
        rw [hlen]; omega
      have h := hcur h0
      rw [drawTick_getD_cur s h0 hidx] at h
      simp only [bumpDraws] at h
      refine ⟨?_, ?_⟩
      · rw [h.1]
        simp [directDraws]
        omega
      · rw [h.2]
        simp [directUploads]
  | PItem.upload :: rest, s, hnest, hlen => by
    have hmn : maxNest (PItem.upload :: rest) = maxNest rest := by simp [maxNest]
    rw [hmn] at hnest
    obtain ⟨s2, hrun, hd, hl, hslots, hcur⟩ :=
      runItems_profile rest (uploadTick s)
        (by rw [uploadTick_depth]; exact hnest)
        (by rw [uploadTick_length]; exact hlen)
    rw [uploadTick_depth] at hd hslots hcur
    refine ⟨s2, by simpa [runItems] using hrun, hd, hl, ?_, ?_⟩
    · intro j hj
      rw [hslots j hj, uploadTick_getD_ne s j hj]
    · intro h0
      have hidx : s.currentDebugDepth - 1 < s.profileInfo.length := by
        rw [hlen]; omega
      have h := hcur h0
      rw [uploadTick_getD_cur s h0 hidx] at h
      simp only [bumpUploads] at h
      refine ⟨?_, ?_⟩
      · rw [h.1]
        simp [directDraws]
      · rw [h.2]
        simp [directUploads]
        omega
  | PItem.scope body :: rest, s, hnest, hlen => by
    have hmn : maxNest (PItem.scope body :: rest) =
        max (maxNest body + 1) (maxNest rest) := by simp [maxNest]
    rw [hmn] at hnest
    have hdlt : s.currentDebugDepth < MAX_DEBUG_DEPTH := by omega
    have hpush : pushDebugGroup s = some
        { s with currentDebugDepth := s.currentDebugDepth + 1
                 profileInfo := s.profileInfo.set s.currentDebugDepth {} } := by
      simp [pushDebugGroup, hdlt]
    obtain ⟨s2, hrun2, hd2, hl2, hslots2, hcur2⟩ :=
      runItems_profile body
        { s with currentDebugDepth := s.currentDebugDepth + 1
                 profileInfo := s.profileInfo.set s.currentDebugDepth {} }
        (by simp only []; show s.currentDebugDepth + 1 + maxNest body ≤ MAX_DEBUG_DEPTH; omega)
        (by simp [hlen])
    simp only [] at hd2 hslots2 hcur2
    have hd2' : s2.currentDebugDepth = s.currentDebugDepth + 1 := hd2
    have h02 : 0 < s2.currentDebugDepth := by omega
    have hpop : popDebugGroup s2 = some
        ({ s2 with currentDebugDepth := s2.currentDebugDepth - 1 },
          s2.profileInfo.getD (s2.currentDebugDepth - 1) {}) := by
      simp [popDebugGroup, h02]
    have hd3 : ({ s2 with currentDebugDepth := s2.currentDebugDepth - 1 } :
        ProfState).currentDebugDepth = s.currentDebugDepth := by
      simp [hd2']
    obtain ⟨s4, hrun4, hd4, hl4, hslots4, hcur4⟩ :=
      runItems_profile rest { s2 with currentDebugDepth := s2.currentDebugDepth - 1 }
        (by rw [hd3]; omega)
        (by simpa using hl2)
    rw [hd3] at hd4 hslots4 hcur4
    simp only [] at hslots4 hcur4
    refine ⟨s4, ?_, hd4, hl4, ?_, ?_⟩
    · simp [runItems, hpush, hrun2, hpop, hrun4]
    · intro j hj
      rw [hslots4 j hj]
      have hj2 : j + 1 < s.currentDebugDepth + 1 := by omega
      rw [hslots2 j hj2]
      have hne : s.currentDebugDepth ≠ j := by omega
      simp [List.getD_eq_getElem?_getD, List.getElem?_set_ne hne]
    · intro h0
      obtain ⟨hdr, hup⟩ := hcur4 h0
      rw [hdr, hup]
      have hj2 : s.currentDebugDepth - 1 + 1 < s.currentDebugDepth + 1 := by omega
      have hbase := hslots2 (s.currentDebugDepth - 1) hj2
      have hne : s.currentDebugDepth ≠ s.currentDebugDepth - 1 := by omega
      rw [hbase]
      simp only [List.getD_eq_getElem?_getD, List.getElem?_set_ne hne]
      constructor
      · simp [directDraws]
      · simp [directUploads]

/-- Claim C4 (amended): for any scope body that fits in the remaining
debug-stack capacity, the ProfileInfo returned by the pop matching the
scope's push counts exactly the draws and uploads issued while that scope
was the innermost active scope (its direct, top-level operations);
operations issued while a more deeply nested scope was active are
attributed to the nested scope only and are not included. -/
theorem c4_scope_direct_counts (body : List PItem) (s : ProfState)
    (hnest : s.currentDebugDepth + (maxNest body + 1) ≤ MAX_DEBUG_DEPTH)
    (hlen : s.profileInfo.length = MAX_DEBUG_DEPTH) :
    ∃ (s3 : ProfState) (info : ProfileInfo),
      runScope body s = some (s3, info) ∧
      info.draws = directDraws body ∧
      info.uploads = directUploads body := by
  have hdlt : s.currentDebugDepth < MAX_DEBUG_DEPTH := by omega
  have hpush : pushDebugGroup s = some
      { s with currentDebugDepth := s.currentDebugDepth + 1
               profileInfo := s.profileInfo.set s.currentDebugDepth {} } := by
    simp [pushDebugGroup, hdlt]
  obtain ⟨s2, hrun2, hd2, hl2, hslots2, hcur2⟩ :=
    runItems_profile body
      { s with currentDebugDepth := s.currentDebugDepth + 1
               profileInfo := s.profileInfo.set s.currentDebugDepth {} }
      (by show s.currentDebugDepth + 1 + maxNest body ≤ MAX_DEBUG_DEPTH; omega)
      (by simp [hlen])
  have hd2' : s2.currentDebugDepth = s.currentDebugDepth + 1 := hd2
  have h02 : 0 < s2.currentDebugDepth := by omega
  have hcur2' :
      (s2.profileInfo.getD s.currentDebugDepth {}).draws =
        ((s.profileInfo.set s.currentDebugDepth {}).getD s.currentDebugDepth {}).draws
          + directDraws body ∧
      (s2.profileInfo.getD s.currentDebugDepth {}).uploads =
        ((s.profileInfo.set s.currentDebugDepth {}).getD s.currentDebugDepth {}).uploads
          + directUploads body := by
    have h := hcur2 (Nat.succ_pos _)
    simpa using h
  have hbase :
      (s.profileInfo.set s.currentDebugDepth ({} : ProfileInfo)).getD
        s.currentDebugDepth {} = {} := by
    have hlt : s.currentDebugDepth < s.profileInfo.length := by rw [hlen]; exact hdlt
    simp [List.getD_eq_getElem?_getD, List.getElem?_set_self hlt]
  have hpop : popDebugGroup s2 = some
      ({ s2 with currentDebugDepth := s2.currentDebugDepth - 1 },
        s2.profileInfo.getD (s2.currentDebugDepth - 1) {}) := by
    simp [popDebugGroup, h02]
  have hidx : s2.currentDebugDepth - 1 = s.currentDebugDepth := by omega
  refine ⟨{ s2 with currentDebugDepth := s2.currentDebugDepth - 1 },
    s2.profileInfo.getD (s2.currentDebugDepth - 1) {}, ?_, ?_, ?_⟩
  · simp [runScope, hpush, hrun2, hpop]
  · rw [hidx, hcur2'.1, hbase]
    simp
  · rw [hidx, hcur2'.2, hbase]
    simp

/-- Claim C4 counterexample: in the nested program scope(scope(upload)),
one upload is issued strictly between the outer scope's push and pop (while
the inner scope was active), yet the ProfileInfo returned by the outer pop
reports zero uploads — the upload was attributed to the inner scope only. -/
theorem c4_counterexample :
    (runScope [PItem.scope [PItem.upload]] initProfState).map (fun r => r.2.uploads) =
      some 0 ∧
    totalUploads [PItem.scope [PItem.upload]] = 1 := by
  constructor
  · simp [runScope, runItems, pushDebugGroup, popDebugGroup, uploadTick, initProfState,
      MAX_DEBUG_DEPTH, bumpUploads]
  · simp [totalUploads]

/-- Claim C4 witness: a scope whose body is one upload then one draw,
entered from the initial state, returns a ProfileInfo reporting exactly one
draw and one upload. -/
theorem c4_witness :
    initProfState.currentDebugDepth + (maxNest [PItem.upload, PItem.draw] + 1) ≤
      MAX_DEBUG_DEPTH ∧
    initProfState.profileInfo.length = MAX_DEBUG_DEPTH ∧
    (∃ (s3 : ProfState) (info : ProfileInfo),
      runScope [PItem.upload, PItem.draw] initProfState = some (s3, info) ∧
      info.draws = directDraws [PItem.upload, PItem.draw] ∧
      info.uploads = directUploads [PItem.upload, PItem.draw]) :=
  ⟨by simp only [maxNest, initProfState, MAX_DEBUG_DEPTH]; omega,
    by simp [initProfState, MAX_DEBUG_DEPTH],
    c4_scope_direct_counts [PItem.upload, PItem.draw] initProfState
      (by simp only [maxNest, initProfState, MAX_DEBUG_DEPTH]; omega)
      (by simp [initProfState, MAX_DEBUG_DEPTH])⟩

end OpenGLRenderer
